import Mathlib

/-!
Shallow embedding of the deep-researcher repository (TypeScript/Deno) for
specification checking.

Modelled modules:
* `src/telemetry/monitoring.ts` — the query-metrics tracker (a JS `Map` from
  query id to a `QueryMetrics` record, with start / record / finalize
  operations).
* `src/core/researcher.ts` — `simpleResearcher`.
* the two `TavilySearchService` variants (an OpenTelemetry-instrumented one
  and a plain one) with their constructor, `search`,
  `searchAndFormatResults`, `setMockResults` and `isInTestMode`.

Modelling conventions:
* JS numbers are modelled as `Int` (the code only adds, subtracts and
  compares them; no fractional or overflow behaviour is relied on).
* `performance.now()` is an effect; each operation that reads the clock takes
  the current reading as an explicit `now : Int` argument.
* A thrown JS `Error` is a `JsError` value carried in `Except`; functions
  that cannot throw are total.
* Logger / console output is returned explicitly as a list of entries;
  OpenTelemetry instrument calls (histogram / counter updates, spans) are
  external side effects with no influence on results and are not modelled.
-/

namespace DeepResearcher

/-- A JavaScript `Error` value: its `name` and `message` properties. -/
structure JsError where
  name : String
  message : String
deriving DecidableEq, Repr

/-- The `LogLevel` enum from `src/telemetry/logger.ts`
(`DEBUG`, `INFO`, `WARN`, `ERROR`). -/
inductive LogLevel where
  | debug
  | info
  | warn
  | error
deriving DecidableEq, Repr

/-- One structured log record emitted through `Logger`; we keep the level and
the `message` argument (the timestamp and extra context fields do not affect
any modelled behaviour). -/
structure LogEntry where
  level : LogLevel
  message : String
deriving DecidableEq, Repr

/-- The `QueryMetrics` interface from `src/telemetry/monitoring.ts`.  Optional
fields (`?` in TypeScript) are `Option`-valued; `undefined` is `none`. -/
structure QueryMetrics where
  queryId : String
  queryText : String
  startTime : Int
  searchLatency : Option Int
  documentFetchCount : Option Int
  tokenUsage : Option Int
  totalProcessingTime : Option Int
  errorCount : Option Int
  sourceDiversity : Option Int
  hallucinations : Option Int
deriving DecidableEq, Repr

/-- The module-level `activeQueries : Map<string, QueryMetrics>`, modelled
extensionally as a lookup function (`Map.get` is application). -/
def ActiveQueries : Type := String → Option QueryMetrics

/-- Models `Map.set`: point update of the lookup function. -/
def mapSet (m : ActiveQueries) (k : String) (v : QueryMetrics) : ActiveQueries :=
  fun k2 => if k2 = k then some v else m k2

/-- Models `Map.delete`: point removal. -/
def mapDelete (m : ActiveQueries) (k : String) : ActiveQueries :=
  fun k2 => if k2 = k then none else m k2

/-- JavaScript `x || 0` on an optional number: `0` when `x` is `undefined`
or `0` (falsy), else the value. -/
def jsOrZero (x : Option Int) : Int :=
  match x with
  | some v => if v = 0 then 0 else v
  | none => 0

/-- Embeds `startQueryTracking(queryId, queryText)`: inserts a fresh record with
`startTime = performance.now()` and `errorCount: 0`, then logs at info
level.  Returns the updated map and the emitted log entries. -/
def startQueryTracking (m : ActiveQueries) (queryId queryText : String)
    (now : Int) : ActiveQueries × List LogEntry :=
  (mapSet m queryId
    { queryId := queryId
      queryText := queryText
      startTime := now
      searchLatency := none
      documentFetchCount := none
      tokenUsage := none
      totalProcessingTime := none
      errorCount := some 0
      sourceDiversity := none
      hallucinations := none },
   [⟨LogLevel.info, "Query tracking started"⟩])

/-- Embeds `recordSearchLatency(queryId, latencyMs)`: overwrites `searchLatency`
on an existing record; on an unknown id only logs a warning. -/
def recordSearchLatency (m : ActiveQueries) (queryId : String)
    (latencyMs : Int) : ActiveQueries × List LogEntry :=
  match m queryId with
  | some query =>
      (mapSet m queryId { query with searchLatency := some latencyMs },
       [⟨LogLevel.debug, "Search latency recorded"⟩])
  | none =>
      (m, [⟨LogLevel.warn, "Attempted to record search latency for unknown query"⟩])

/-- Embeds `recordDocumentsFetched(queryId, count)`: overwrites
`documentFetchCount`; on an unknown id only logs a warning. -/
def recordDocumentsFetched (m : ActiveQueries) (queryId : String)
    (count : Int) : ActiveQueries × List LogEntry :=
  match m queryId with
  | some query =>
      (mapSet m queryId { query with documentFetchCount := some count },
       [⟨LogLevel.debug, "Documents fetched recorded"⟩])
  | none =>
      (m, [⟨LogLevel.warn, "Attempted to record documents fetched for unknown query"⟩])

/-- Embeds `recordTokenUsage(queryId, tokens)`: accumulates
(`query.tokenUsage = (query.tokenUsage || 0) + tokens`); on an unknown id
only logs a warning. -/
def recordTokenUsage (m : ActiveQueries) (queryId : String)
    (tokens : Int) : ActiveQueries × List LogEntry :=
  match m queryId with
  | some query =>
      (mapSet m queryId
        { query with tokenUsage := some (jsOrZero query.tokenUsage + tokens) },
       [⟨LogLevel.debug, "Token usage recorded"⟩])
  | none =>
      (m, [⟨LogLevel.warn, "Attempted to record token usage for unknown query"⟩])

/-- Embeds `recordSourceDiversity(queryId, uniqueSourceCount)`: overwrites
`sourceDiversity`; on an unknown id only logs a warning. -/
def recordSourceDiversity (m : ActiveQueries) (queryId : String)
    (uniqueSourceCount : Int) : ActiveQueries × List LogEntry :=
  match m queryId with
  | some query =>
      (mapSet m queryId { query with sourceDiversity := some uniqueSourceCount },
       [⟨LogLevel.debug, "Source diversity recorded"⟩])
  | none =>
      (m, [⟨LogLevel.warn, "Attempted to record source diversity for unknown query"⟩])

/-- Embeds `recordError(queryId, error)`: accumulates
(`query.errorCount = (query.errorCount || 0) + 1`) and logs the error; on
an unknown id only logs a warning. -/
def recordError (m : ActiveQueries) (queryId : String)
    (_err : JsError) : ActiveQueries × List LogEntry :=
  match m queryId with
  | some query =>
      (mapSet m queryId
        { query with errorCount := some (jsOrZero query.errorCount + 1) },
       [⟨LogLevel.error, "Error during query processing"⟩])
  | none =>
      (m, [⟨LogLevel.warn, "Attempted to record error for unknown query"⟩])

/-- Embeds `finalizeQueryTracking(queryId)`: on a tracked id, sets
`totalProcessingTime = performance.now() - startTime`, logs a summary,
deletes the map entry and returns the record; on an unknown id logs a
warning and returns `undefined` (`none`). -/
def finalizeQueryTracking (m : ActiveQueries) (queryId : String)
    (now : Int) : ActiveQueries × Option QueryMetrics × List LogEntry :=
  match m queryId with
  | some query =>
      let finished := { query with totalProcessingTime := some (now - query.startTime) }
      (mapDelete m queryId, some finished,
       [⟨LogLevel.info, "Query processing completed"⟩])
  | none =>
      (m, none, [⟨LogLevel.warn, "Attempted to finalize unknown query"⟩])

/-- Outcome of one `llm.invoke(messages)` call in `src/core/researcher.ts`:
it either resolves with the response `content` string or rejects. -/
inductive ChatOutcome where
  | success (content : String)
  | failure (e : JsError)
deriving DecidableEq, Repr

/-- The two-message prompt `simpleResearcher` sends to the chat client
(role, text). -/
def researcherMessages (question researchSummary : String) :
    List (String × String) :=
  [("system", "You are a helpful research assistant."),
   ("human",
    "Question: " ++ question ++ "\nResearch: " ++ researchSummary ++
      "\nPlease provide a concise answer.")]

/-- Embeds `simpleResearcher(query)` from `src/core/researcher.ts`.  The chat
client (`ChatOpenAI` + `invoke`) is abstracted as the function `chat` from
the sent messages to an outcome.  The `catch` branch substitutes the fixed
error string; the final `return state.answer || "..."` substitutes the
not-found string exactly when the answer is the empty string. -/
def simpleResearcher (chat : List (String × String) → ChatOutcome)
    (query : String) : String :=
  let researchSummary := "Found some interesting information about: " ++ query
  let answer :=
    match chat (researcherMessages query researchSummary) with
    | ChatOutcome.success content => content
    | ChatOutcome.failure _ =>
        "Sorry, I encountered an error while generating your answer."
  if answer = "" then "Sorry, I couldn\x27t find an answer." else answer

/-- The `SearchResult` interface from the Tavily service modules. -/
structure SearchResult where
  title : String
  url : String
  content : String
  score : Int
  raw_content : Option String
deriving DecidableEq, Repr

/-- Models `s.substring(0, n)`: the first `n` characters of `s`. -/
def strTake (s : String) (n : Nat) : String :=
  String.mk (s.data.take n)

/-- The text block `searchAndFormatResults` appends for the result at
(0-based) `idx`:
`` `${index + 1}. "${title}"\n   URL: ...\n   Relevance Score: ...\n   Summary: <content truncated to 200 chars><"..." if longer>\n\n` ``. -/
def formatResult (idx : Nat) (r : SearchResult) : String :=
  toString (idx + 1) ++ ". \"" ++ r.title ++ "\"\n" ++
    "   URL: " ++ r.url ++ "\n" ++
    "   Relevance Score: " ++ toString r.score ++ "\n" ++
    "   Summary: " ++ strTake r.content 200 ++
    (if 200 < r.content.data.length then "..." else "") ++ "\n\n"

/-- The `results.forEach((result, index) => formattedResults += ...)` loop,
rendered as index-threading recursion. -/
def formatResultsFrom (idx : Nat) : List SearchResult → String
  | [] => ""
  | r :: rest => formatResult idx r ++ formatResultsFrom (idx + 1) rest

/-- Embeds `searchAndFormatResults(query)`, as a function of the result list the
inner `search(query)` call returned (identical in both service variants):
`"No results found."` for an empty list, otherwise a header
`` `Found ${results.length} results for "${query}":\n\n` `` followed by the
per-result blocks. -/
def searchAndFormatResults (query : String)
    (results : List SearchResult) : String :=
  if results.length = 0 then "No results found."
  else
    ("Found " ++ toString results.length ++ " results for \"" ++ query ++
      "\":\n\n") ++ formatResultsFrom 0 results

/-- The instance fields of `TavilySearchService` (both variants):
`isTestMode`, `mockResults`, and whether `tavilyTool` is defined. -/
structure TavilyState where
  isTestMode : Bool
  mockResults : List SearchResult
  toolInitialized : Bool
deriving DecidableEq, Repr

/-- Console output levels (`console.log` / `console.warn` /
`console.error`). -/
inductive ConsoleLevel where
  | log
  | warn
  | error
deriving DecidableEq, Repr

/-- One console output line: level and the (concatenated) arguments. -/
structure ConsoleEntry where
  level : ConsoleLevel
  message : String
deriving DecidableEq, Repr

/-- Outcome of `this.tavilyTool.invoke(query)` as consumed by the plain
(non-instrumented) `search`: the promise resolves with a string body that
`JSON.parse` either parses to a result array or fails on, or with a
non-string value (array or otherwise), or it rejects with an error. -/
inductive InvokeOutcome where
  | strParsed (rs : List SearchResult)
  | strMalformed (parseErrMsg : String)
  | nonStringArray (rs : List SearchResult)
  | nonStringOther
  | thrown (e : JsError)
deriving DecidableEq, Repr

/-- The plain (non-instrumented) `TavilySearchService.search(query)`.
Test mode short-circuits to the mock results.  Inside the `try`: a missing
tool throws, a string body is `JSON.parse`d (a parse failure is logged and
yields `[]` — the inner `catch` keeps it from reaching the outer one), a
non-string body is logged as unexpected and yields the array itself or
`[]`.  The outer `catch` logs and re-throws
`` new Error(`Tavily search failed: ${message}`) ``. -/
def simpleSearch (st : TavilyState) (query : String)
    (outcome : InvokeOutcome) :
    Except JsError (List SearchResult) × List ConsoleEntry :=
  if st.isTestMode then (Except.ok st.mockResults, [])
  else
    let entryLog : ConsoleEntry :=
      ⟨ConsoleLevel.log, "Performing Tavily search for: \"" ++ query ++ "\""⟩
    let attempt : Except JsError (List SearchResult) × List ConsoleEntry :=
      if st.toolInitialized = false then
        (Except.error ⟨"Error", "Tavily tool not initialized"⟩, [entryLog])
      else
        match outcome with
        | InvokeOutcome.strParsed rs => (Except.ok rs, [entryLog])
        | InvokeOutcome.strMalformed parseErrMsg =>
            (Except.ok [],
             [entryLog,
              ⟨ConsoleLevel.error, "Error parsing Tavily results: " ++ parseErrMsg⟩])
        | InvokeOutcome.nonStringArray rs =>
            (Except.ok rs,
             [entryLog, ⟨ConsoleLevel.warn, "Unexpected result type from Tavily: object"⟩])
        | InvokeOutcome.nonStringOther =>
            (Except.ok [],
             [entryLog, ⟨ConsoleLevel.warn, "Unexpected result type from Tavily: object"⟩])
        | InvokeOutcome.thrown e => (Except.error e, [entryLog])
    match attempt with
    | (Except.ok rs, logs) => (Except.ok rs, logs)
    | (Except.error e, logs) =>
        (Except.error ⟨"Error", "Tavily search failed: " ++ e.message⟩,
         logs ++ [⟨ConsoleLevel.error, "Error performing Tavily search: " ++ e.message⟩])

/-- The OpenTelemetry-instrumented `TavilySearchService.search(query,
queryId?)`.  Test mode short-circuits to the mock results; a missing tool
throws; otherwise the invoke result is returned as-is.  The `catch` block
only logs, records the exception on the span and bumps the error counter,
then does `throw error` — the original error propagates unchanged (span
and metric effects are external and not modelled). -/
def instrumentedSearch (st : TavilyState)
    (invokeResult : Except JsError (List SearchResult)) :
    Except JsError (List SearchResult) :=
  if st.isTestMode then Except.ok st.mockResults
  else if st.toolInitialized = false then
    Except.error ⟨"Error", "Tavily tool not initialized"⟩
  else
    match invokeResult with
    | Except.ok results => Except.ok results
    | Except.error e => Except.error e

/-- The constructor options that steer control flow; the remaining options
(`maxResults`, `searchDepth`, `includeRawContent`, `includeImages`,
`apiKey`) are only forwarded to the underlying tool constructor, which is
abstracted by `toolOutcome` below. -/
structure TavilyCtorOptions where
  testMode : Option Bool
deriving DecidableEq, Repr

/-- The `TavilySearchService` constructor (identical in both variants).
`options.testMode === true` short-circuits into test mode.  Otherwise
`new TavilySearchResults(...)` either succeeds (`toolOutcome = none`) or
throws (`toolOutcome = some e`, e.g. a missing API key); on a throw, if
`Deno.env.get("DENO_ENV") === "test"` the instance silently switches into
test mode, else the error propagates. -/
def tavilyConstructor (opts : TavilyCtorOptions) (denoEnv : Option String)
    (toolOutcome : Option JsError) : Except JsError TavilyState :=
  if opts.testMode = some true then
    Except.ok { isTestMode := true, mockResults := [], toolInitialized := false }
  else
    match toolOutcome with
    | none =>
        Except.ok { isTestMode := false, mockResults := [], toolInitialized := true }
    | some e =>
        if denoEnv = some "test" then
          Except.ok { isTestMode := true, mockResults := [], toolInitialized := false }
        else Except.error e

/-- Embeds `setMockResults(mockResults)`: stores the mocks and, if not already in
test mode, switches test mode on. -/
def setMockResults (st : TavilyState) (mocks : List SearchResult) : TavilyState :=
  { st with
      mockResults := mocks
      isTestMode := if st.isTestMode = false then true else st.isTestMode }

/-- Embeds `isInTestMode()`. -/
def isInTestMode (st : TavilyState) : Bool :=
  st.isTestMode

/-- Decides whether `pat` is a leading segment (prefix) of `hay`. -/
def leadsIn : List Char → List Char → Bool
  | [], _ => true
  | _ :: _, [] => false
  | p :: ps, h :: hs => p = h && leadsIn ps hs

/-- Decides whether `pat` occurs contiguously anywhere inside `hay`. -/
def occursIn : List Char → List Char → Bool
  | pat, [] => leadsIn pat []
  | pat, h :: hs => leadsIn pat (h :: hs) || occursIn pat hs

/-- True exactly when `hay` contains `pat` as a contiguous substring. -/
def strOccurs (pat hay : String) : Bool :=
  occursIn pat.data hay.data

/-- Concrete sample tracked record, used only to instantiate theorems at
concrete inputs. -/
def sampleTracked : QueryMetrics :=
  { queryId := "a", queryText := "b", startTime := 2,
    searchLatency := some 9, documentFetchCount := none,
    tokenUsage := some 40, totalProcessingTime := none,
    errorCount := some 1, sourceDiversity := none, hallucinations := none }

/-- Concrete sample map holding `sampleTracked` under every key. -/
def sampleMap : ActiveQueries := fun _ => some sampleTracked

/-- Concrete sample search result, used only to instantiate theorems at
concrete inputs. -/
def sampleResult : SearchResult :=
  { title := "T", url := "U", content := "c", score := 0, raw_content := none }

/-- The service state after a successful live construction: not in test
mode, tool initialized. -/
def liveState : TavilyState :=
  { isTestMode := false, mockResults := [], toolInitialized := true }

/-- The service state after switching into test mode at construction: test
mode on, no mocks yet, tool not initialized. -/
def testModeState : TavilyState :=
  { isTestMode := true, mockResults := [], toolInitialized := false }

theorem jsOrZero_some (v : Int) : jsOrZero (some v) = v := by
  show (if v = 0 then 0 else v) = v
  split <;> omega

theorem jsOrZero_none : jsOrZero none = 0 := rfl

theorem leadsIn_self_append (p t : List Char) : leadsIn p (p ++ t) = true := by
  induction p with
  | nil => rfl
  | cons a as ih => simp [leadsIn, ih]

theorem leadsIn_extend (p h t : List Char) (hp : leadsIn p h = true) :
    leadsIn p (h ++ t) = true := by
  induction p generalizing h with
  | nil => rfl
  | cons a as ih =>
    cases h with
    | nil => simp [leadsIn] at hp
    | cons b bs =>
      simp only [leadsIn, Bool.and_eq_true, decide_eq_true_eq] at hp
      simp only [List.cons_append, leadsIn, Bool.and_eq_true, decide_eq_true_eq]
      exact ⟨hp.1, ih bs hp.2⟩

theorem leadsIn_cancel (a b c : List Char) :
    leadsIn (a ++ b) (a ++ c) = leadsIn b c := by
  induction a with
  | nil => rfl
  | cons x xs ih => simp [leadsIn, ih]

theorem occursIn_nil_pat (l : List Char) : occursIn [] l = true := by
  cases l <;> rfl

theorem occursIn_of_leadsIn (p h : List Char) (hp : leadsIn p h = true) :
    occursIn p h = true := by
  cases h with
  | nil => exact hp
  | cons x xs => simp [occursIn, hp]

theorem occursIn_here (p rest : List Char) : occursIn p (p ++ rest) = true :=
  occursIn_of_leadsIn _ _ (leadsIn_self_append p rest)

theorem occursIn_skip (p a rest : List Char) (h : occursIn p rest = true) :
    occursIn p (a ++ rest) = true := by
  induction a with
  | nil => exact h
  | cons x xs ih => simp [occursIn, ih]

theorem occursIn_extend (p h t : List Char) (hp : occursIn p h = true) :
    occursIn p (h ++ t) = true := by
  induction h with
  | nil =>
    cases p with
    | nil => exact occursIn_nil_pat t
    | cons a as => simp [occursIn, leadsIn] at hp
  | cons x xs ih =>
    simp only [occursIn, Bool.or_eq_true] at hp
    simp only [List.cons_append, occursIn, Bool.or_eq_true]
    rcases hp with h1 | h2
    · exact Or.inl (leadsIn_extend _ _ _ h1)
    · exact Or.inr (ih h2)

theorem strOccurs_append_right (pat a b : String) (h : strOccurs pat b = true) :
    strOccurs pat (a ++ b) = true := by
  unfold strOccurs at h ⊢
  rw [String.data_append]
  exact occursIn_skip _ _ _ h

theorem strOccurs_append_left (pat a b : String) (h : strOccurs pat a = true) :
    strOccurs pat (a ++ b) = true := by
  unfold strOccurs at h ⊢
  rw [String.data_append]
  exact occursIn_extend _ _ _ h

theorem formatResult_occurs_title (idx : Nat) (r : SearchResult) :
    strOccurs r.title (formatResult idx r) = true := by
  unfold strOccurs formatResult
  simp only [String.data_append, List.append_assoc]
  apply occursIn_skip
  apply occursIn_skip
  exact occursIn_here _ _

theorem formatResult_occurs_url (idx : Nat) (r : SearchResult) :
    strOccurs r.url (formatResult idx r) = true := by
  unfold strOccurs formatResult
  simp only [String.data_append, List.append_assoc]
  apply occursIn_skip
  apply occursIn_skip
  apply occursIn_skip
  apply occursIn_skip
  apply occursIn_skip
  exact occursIn_here _ _

theorem formatResult_occurs_summary (idx : Nat) (r : SearchResult) :
    strOccurs ("   Summary: " ++ strTake r.content 200) (formatResult idx r) = true := by
  unfold strOccurs formatResult
  simp only [String.data_append, List.append_assoc]
  apply occursIn_skip
  apply occursIn_skip
  apply occursIn_skip
  apply occursIn_skip
  apply occursIn_skip
  apply occursIn_skip
  apply occursIn_skip
  apply occursIn_skip
  apply occursIn_skip
  apply occursIn_skip
  apply occursIn_of_leadsIn
  rw [← List.append_assoc]
  exact leadsIn_self_append _ _

theorem occursIn_formatResultsFrom (pat : String) (r : SearchResult)
    (l : List SearchResult) (hmem : r ∈ l)
    (hr : ∀ j, strOccurs pat (formatResult j r) = true) :
    ∀ idx, strOccurs pat (formatResultsFrom idx l) = true := by
  induction l with
  | nil => cases hmem
  | cons x xs ih =>
    intro idx
    simp only [formatResultsFrom]
    rcases List.mem_cons.mp hmem with h1 | h2
    · subst h1
      exact strOccurs_append_left _ _ _ (hr idx)
    · exact strOccurs_append_right _ _ _ (ih h2 (idx + 1))

/-- C1: for a fresh `queryId`, `startQueryTracking`, then any single recorder
call (`recordSearchLatency`, `recordDocumentsFetched`, `recordTokenUsage`,
`recordSourceDiversity`, or `recordError`), then `finalizeQueryTracking`
returns a defined record whose fields match exactly what was recorded, and an
immediately following second `finalizeQueryTracking` on the same id returns
`undefined` (`none`). -/
theorem c1_single_recorder_roundtrip (m : ActiveQueries) (qid qtext : String)
    (hfresh : m qid = none) (t0 t1 t2 lat docs tokens srcs : Int) (e : JsError) :
    ((finalizeQueryTracking
        (recordSearchLatency (startQueryTracking m qid qtext t0).1 qid lat).1
        qid t1).2.1 =
      some { queryId := qid, queryText := qtext, startTime := t0,
             searchLatency := some lat, documentFetchCount := none,
             tokenUsage := none, totalProcessingTime := some (t1 - t0),
             errorCount := some 0, sourceDiversity := none,
             hallucinations := none } ∧
     (finalizeQueryTracking
        (finalizeQueryTracking
          (recordSearchLatency (startQueryTracking m qid qtext t0).1 qid lat).1
          qid t1).1 qid t2).2.1 = none) ∧
    ((finalizeQueryTracking
        (recordDocumentsFetched (startQueryTracking m qid qtext t0).1 qid docs).1
        qid t1).2.1 =
      some { queryId := qid, queryText := qtext, startTime := t0,
             searchLatency := none, documentFetchCount := some docs,
             tokenUsage := none, totalProcessingTime := some (t1 - t0),
             errorCount := some 0, sourceDiversity := none,
             hallucinations := none } ∧
     (finalizeQueryTracking
        (finalizeQueryTracking
          (recordDocumentsFetched (startQueryTracking m qid qtext t0).1 qid docs).1
          qid t1).1 qid t2).2.1 = none) ∧
    ((finalizeQueryTracking
        (recordTokenUsage (startQueryTracking m qid qtext t0).1 qid tokens).1
        qid t1).2.1 =
      some { queryId := qid, queryText := qtext, startTime := t0,
             searchLatency := none, documentFetchCount := none,
             tokenUsage := some tokens, totalProcessingTime := some (t1 - t0),
             errorCount := some 0, sourceDiversity := none,
             hallucinations := none } ∧
     (finalizeQueryTracking
        (finalizeQueryTracking
          (recordTokenUsage (startQueryTracking m qid qtext t0).1 qid tokens).1
          qid t1).1 qid t2).2.1 = none) ∧
    ((finalizeQueryTracking
        (recordSourceDiversity (startQueryTracking m qid qtext t0).1 qid srcs).1
        qid t1).2.1 =
      some { queryId := qid, queryText := qtext, startTime := t0,
             searchLatency := none, documentFetchCount := none,
             tokenUsage := none, totalProcessingTime := some (t1 - t0),
             errorCount := some 0, sourceDiversity := some srcs,
             hallucinations := none } ∧
     (finalizeQueryTracking
        (finalizeQueryTracking
          (recordSourceDiversity (startQueryTracking m qid qtext t0).1 qid srcs).1
          qid t1).1 qid t2).2.1 = none) ∧
    ((finalizeQueryTracking
        (recordError (startQueryTracking m qid qtext t0).1 qid e).1
        qid t1).2.1 =
      some { queryId := qid, queryText := qtext, startTime := t0,
             searchLatency := none, documentFetchCount := none,
             tokenUsage := none, totalProcessingTime := some (t1 - t0),
             errorCount := some 1, sourceDiversity := none,
             hallucinations := none } ∧
     (finalizeQueryTracking
        (finalizeQueryTracking
          (recordError (startQueryTracking m qid qtext t0).1 qid e).1
          qid t1).1 qid t2).2.1 = none) := by
  simp [startQueryTracking, recordSearchLatency, recordDocumentsFetched,
        recordTokenUsage, recordSourceDiversity, recordError,
        finalizeQueryTracking, mapSet, mapDelete, jsOrZero]

/-- Witness for C1 at a concrete fresh map and concrete inputs. -/
theorem c1_single_recorder_roundtrip_witness :
    ((fun _ => none : ActiveQueries) "q" = none) ∧
    (finalizeQueryTracking
        (recordSearchLatency
          (startQueryTracking (fun _ => none) "q" "t" 0).1 "q" 7).1
        "q" 5).2.1 =
      some { queryId := "q", queryText := "t", startTime := 0,
             searchLatency := some 7, documentFetchCount := none,
             tokenUsage := none, totalProcessingTime := some 5,
             errorCount := some 0, sourceDiversity := none,
             hallucinations := none } :=
  ⟨rfl,
   ((c1_single_recorder_roundtrip (fun _ => none) "q" "t" rfl 0 5 9 7 3 100 4
      ⟨"Error", "boom"⟩).1.1)⟩

/-- C2: for a tracked id, `finalizeQueryTracking` sets `totalProcessingTime`
to the wall-clock delta `now - startTime` (hence non-negative, the clock
being monotone), deletes the map entry, and returns the record; and the
concrete sequence `startQueryTracking("q1", "what is X")`,
`recordDocumentsFetched("q1", 3)`, `recordTokenUsage("q1", 100)`,
`recordTokenUsage("q1", 50)`, `finalizeQueryTracking("q1")` returns a record
with `documentFetchCount = 3`, `tokenUsage = 150`, `errorCount = 0` and a
defined non-negative `totalProcessingTime`. -/
theorem c2_finalize_wallclock_delete_snapshot (m : ActiveQueries)
    (qid : String) (q : QueryMetrics) (now : Int)
    (hq : m qid = some q) (hmono : q.startTime ≤ now)
    (t0 t1 : Int) (ht : t0 ≤ t1) :
    ((finalizeQueryTracking m qid now).2.1 =
        some { q with totalProcessingTime := some (now - q.startTime) } ∧
      (finalizeQueryTracking m qid now).1 qid = none ∧
      0 ≤ now - q.startTime) ∧
    ((finalizeQueryTracking
        (recordTokenUsage
          (recordTokenUsage
            (recordDocumentsFetched
              (startQueryTracking (fun _ => none) "q1" "what is X" t0).1
              "q1" 3).1
            "q1" 100).1
          "q1" 50).1
        "q1" t1).2.1 =
      some { queryId := "q1", queryText := "what is X", startTime := t0,
             searchLatency := none, documentFetchCount := some 3,
             tokenUsage := some 150, totalProcessingTime := some (t1 - t0),
             errorCount := some 0, sourceDiversity := none,
             hallucinations := none } ∧
      0 ≤ t1 - t0) := by
  refine ⟨⟨?_, ?_, ?_⟩, ?_, ?_⟩
  · simp [finalizeQueryTracking, hq]
  · simp [finalizeQueryTracking, hq, mapDelete]
  · omega
  · simp [startQueryTracking, recordDocumentsFetched, recordTokenUsage,
          finalizeQueryTracking, mapSet, mapDelete, jsOrZero_none,
          jsOrZero_some]
  · omega

/-- Witness for C2 at a concrete map and concrete clock readings. -/
theorem c2_finalize_wallclock_delete_snapshot_witness :
    (sampleMap "a" = some sampleTracked) ∧
    sampleTracked.startTime ≤ 6 ∧ (0 : Int) ≤ 4 ∧
    (finalizeQueryTracking
        (recordTokenUsage
          (recordTokenUsage
            (recordDocumentsFetched
              (startQueryTracking (fun _ => none) "q1" "what is X" 0).1
              "q1" 3).1
            "q1" 100).1
          "q1" 50).1
        "q1" 4).2.1 =
      some { queryId := "q1", queryText := "what is X", startTime := 0,
             searchLatency := none, documentFetchCount := some 3,
             tokenUsage := some 150, totalProcessingTime := some 4,
             errorCount := some 0, sourceDiversity := none,
             hallucinations := none } :=
  ⟨rfl, by decide, by omega,
   (c2_finalize_wallclock_delete_snapshot sampleMap "a" sampleTracked 6 rfl
      (by decide) 0 4 (by omega)).2.1⟩

/-- C3: every recorder call against an id that is not in the map leaves the
map exactly unchanged, emits exactly one warning-level log entry, and (being
a total function) raises no exception. -/
theorem c3_unknown_id_recorders_noop (m : ActiveQueries) (qid : String)
    (h : m qid = none) (lat docs tokens srcs : Int) (e : JsError) :
    recordSearchLatency m qid lat =
      (m, [⟨LogLevel.warn, "Attempted to record search latency for unknown query"⟩]) ∧
    recordDocumentsFetched m qid docs =
      (m, [⟨LogLevel.warn, "Attempted to record documents fetched for unknown query"⟩]) ∧
    recordTokenUsage m qid tokens =
      (m, [⟨LogLevel.warn, "Attempted to record token usage for unknown query"⟩]) ∧
    recordSourceDiversity m qid srcs =
      (m, [⟨LogLevel.warn, "Attempted to record source diversity for unknown query"⟩]) ∧
    recordError m qid e =
      (m, [⟨LogLevel.warn, "Attempted to record error for unknown query"⟩]) := by
  simp [recordSearchLatency, recordDocumentsFetched, recordTokenUsage,
        recordSourceDiversity, recordError, h]

/-- Witness for C3 on the empty map. -/
theorem c3_unknown_id_recorders_noop_witness :
    ((fun _ => none : ActiveQueries) "q" = none) ∧
    recordTokenUsage (fun _ => none) "q" 5 =
      ((fun _ => none : ActiveQueries),
       [⟨LogLevel.warn, "Attempted to record token usage for unknown query"⟩]) :=
  ⟨rfl,
   (c3_unknown_id_recorders_noop (fun _ => none) "q" rfl 1 2 5 3
      ⟨"Error", "boom"⟩).2.2.1⟩

/-- C4: on a tracked id, `recordTokenUsage` and `recordError` accumulate
(add to the existing value), while `recordSearchLatency`,
`recordDocumentsFetched` and `recordSourceDiversity` overwrite (the previous
value does not influence the result, and the last call wins); in particular
two `recordTokenUsage` calls with `a` and `b` after a fresh
`startQueryTracking` yield `tokenUsage = a + b`. -/
theorem c4_accumulate_vs_overwrite (m : ActiveQueries) (qid qtext : String)
    (q : QueryMetrics) (hq : m qid = some q) (t0 a b : Int) (e : JsError) :
    ((recordTokenUsage m qid a).1 qid =
        some { q with tokenUsage := some (jsOrZero q.tokenUsage + a) }) ∧
    ((recordError m qid e).1 qid =
        some { q with errorCount := some (jsOrZero q.errorCount + 1) }) ∧
    ((recordSearchLatency m qid a).1 qid =
        some { q with searchLatency := some a }) ∧
    ((recordDocumentsFetched m qid a).1 qid =
        some { q with documentFetchCount := some a }) ∧
    ((recordSourceDiversity m qid a).1 qid =
        some { q with sourceDiversity := some a }) ∧
    ((recordSearchLatency (recordSearchLatency m qid a).1 qid b).1 qid =
        some { q with searchLatency := some b }) ∧
    ((recordTokenUsage
        (recordTokenUsage (startQueryTracking m qid qtext t0).1 qid a).1
        qid b).1 qid =
      some { queryId := qid, queryText := qtext, startTime := t0,
             searchLatency := none, documentFetchCount := none,
             tokenUsage := some (a + b), totalProcessingTime := none,
             errorCount := some 0, sourceDiversity := none,
             hallucinations := none }) := by
  refine ⟨?_, ?_, ?_, ?_, ?_, ?_, ?_⟩ <;>
    simp [recordTokenUsage, recordError, recordSearchLatency,
          recordDocumentsFetched, recordSourceDiversity, startQueryTracking,
          mapSet, hq, jsOrZero_none, jsOrZero_some]

/-- Witness for C4 on a concrete tracked record. -/
theorem c4_accumulate_vs_overwrite_witness :
    (sampleMap "a" = some sampleTracked) ∧
    (recordTokenUsage sampleMap "a" 5).1 "a" =
      some { sampleTracked with
               tokenUsage := some (jsOrZero sampleTracked.tokenUsage + 5) } :=
  ⟨rfl,
   (c4_accumulate_vs_overwrite sampleMap "a" "t" sampleTracked rfl 0 5 7
      ⟨"Error", "boom"⟩).1⟩

/-- C5: for every query and chat-client behaviour, `simpleResearcher`
returns a non-empty string; on a chat failure it returns the literal error
fallback (the exception never propagates, `simpleResearcher` being total);
on an empty generated result it returns the literal not-found fallback; on a
non-empty generated result it returns that result. -/
theorem c5_simple_researcher_fallbacks
    (chat : List (String × String) → ChatOutcome) (query : String) :
    simpleResearcher chat query ≠ "" ∧
    (∀ e, chat (researcherMessages query
          ("Found some interesting information about: " ++ query)) =
        ChatOutcome.failure e →
      simpleResearcher chat query =
        "Sorry, I encountered an error while generating your answer.") ∧
    (chat (researcherMessages query
          ("Found some interesting information about: " ++ query)) =
        ChatOutcome.success "" →
      simpleResearcher chat query = "Sorry, I couldn\x27t find an answer.") ∧
    (∀ c, c ≠ "" →
      chat (researcherMessages query
          ("Found some interesting information about: " ++ query)) =
        ChatOutcome.success c →
      simpleResearcher chat query = c) := by
  unfold simpleResearcher
  have hErr :
      ("Sorry, I encountered an error while generating your answer." : String) ≠ "" := by
    decide
  cases hchat : chat (researcherMessages query
      ("Found some interesting information about: " ++ query)) with
  | success content =>
    by_cases hc : content = ""
    · simp [hchat, hc]
      intro h h1 h2
      exact absurd h2.symm h1
    · simp [hchat, hc]
  | failure e =>
    simp [hchat, hErr]

/-- Witness for C5: a chat client that always fails yields the error
fallback string. -/
theorem c5_simple_researcher_fallbacks_witness :
    simpleResearcher (fun _ => ChatOutcome.failure ⟨"Error", "boom"⟩) "q" =
      "Sorry, I encountered an error while generating your answer." :=
  (c5_simple_researcher_fallbacks
      (fun _ => ChatOutcome.failure ⟨"Error", "boom"⟩) "q").2.1
    ⟨"Error", "boom"⟩ rfl

/-- C6: `searchAndFormatResults` on an empty result list is exactly
`"No results found."`; on a non-empty list of `N` results the output
contains `"Found N results"` and, for every result, its title, its URL and
its content excerpt truncated to 200 characters. -/
theorem c6_search_and_format_rendering (query : String)
    (results : List SearchResult) (hne : results ≠ []) :
    searchAndFormatResults query [] = "No results found." ∧
    strOccurs ("Found " ++ toString results.length ++ " results")
        (searchAndFormatResults query results) = true ∧
    ∀ r ∈ results,
      strOccurs r.title (searchAndFormatResults query results) = true ∧
      strOccurs r.url (searchAndFormatResults query results) = true ∧
      strOccurs ("   Summary: " ++ strTake r.content 200)
          (searchAndFormatResults query results) = true ∧
      (strTake r.content 200).data.length ≤ 200 := by
  have hlen : ¬results.length = 0 := fun h => hne (List.length_eq_zero.mp h)
  have hout : searchAndFormatResults query results =
      ("Found " ++ toString results.length ++ " results for \"" ++ query ++
        "\":\n\n") ++ formatResultsFrom 0 results := by
    unfold searchAndFormatResults
    rw [if_neg hlen]
  refine ⟨rfl, ?_, ?_⟩
  · rw [hout]
    unfold strOccurs
    simp only [String.data_append, List.append_assoc]
    apply occursIn_of_leadsIn
    rw [leadsIn_cancel, leadsIn_cancel]
    apply leadsIn_extend
    decide
  · intro r hr
    refine ⟨?_, ?_, ?_, ?_⟩
    · rw [hout]
      exact strOccurs_append_right _ _ _
        (occursIn_formatResultsFrom _ r results hr
          (fun j => formatResult_occurs_title j r) 0)
    · rw [hout]
      exact strOccurs_append_right _ _ _
        (occursIn_formatResultsFrom _ r results hr
          (fun j => formatResult_occurs_url j r) 0)
    · rw [hout]
      exact strOccurs_append_right _ _ _
        (occursIn_formatResultsFrom _ r results hr
          (fun j => formatResult_occurs_summary j r) 0)
    · show (List.take 200 r.content.data).length ≤ 200
      rw [List.length_take]
      exact min_le_left _ _

/-- Witness for C6 on a concrete one-element result list. -/
theorem c6_search_and_format_rendering_witness :
    ([sampleResult] ≠ ([] : List SearchResult)) ∧
    strOccurs sampleResult.title
        (searchAndFormatResults "q" [sampleResult]) = true ∧
    strOccurs sampleResult.url
        (searchAndFormatResults "q" [sampleResult]) = true :=
  ⟨List.cons_ne_nil _ _,
   ((c6_search_and_format_rendering "q" [sampleResult]
      (List.cons_ne_nil _ _)).2.2 sampleResult (List.mem_cons_self _ _)).1,
   ((c6_search_and_format_rendering "q" [sampleResult]
      (List.cons_ne_nil _ _)).2.2 sampleResult (List.mem_cons_self _ _)).2.1⟩

/-- C7 counterexample: in the instrumented `TavilySearchService.search`, a
failing underlying call is re-thrown as the original error, unchanged —
neither renamed nor wrapping the message — contradicting the claim that
every `search` failure raises a renamed wrapper error. -/
theorem c7_instrumented_search_counterexample :
    instrumentedSearch liveState (Except.error ⟨"TypeError", "boom"⟩) =
      Except.error ⟨"TypeError", "boom"⟩ ∧
    (JsError.mk "TypeError" "boom").name ≠ "Error" ∧
    (JsError.mk "TypeError" "boom").message ≠ "Tavily search failed: boom" :=
  ⟨rfl, by decide, by decide⟩

/-- C7 (amended): when the underlying invoke fails, the plain
`TavilySearchService.search` re-throws a renamed error carrying the
original message (`"Tavily search failed: <message>"`); the instrumented
variant instead logs and re-throws the original error unchanged. -/
theorem c7_search_error_wrapping (st : TavilyState) (q : String) (e : JsError)
    (h1 : st.isTestMode = false) (h2 : st.toolInitialized = true) :
    (simpleSearch st q (InvokeOutcome.thrown e)).1 =
      Except.error ⟨"Error", "Tavily search failed: " ++ e.message⟩ ∧
    instrumentedSearch st (Except.error e) = Except.error e := by
  simp [simpleSearch, instrumentedSearch, h1, h2]

/-- Witness for C7 (amended) at a concrete live state and error. -/
theorem c7_search_error_wrapping_witness :
    (liveState.isTestMode = false) ∧ (liveState.toolInitialized = true) ∧
    (simpleSearch liveState "q" (InvokeOutcome.thrown ⟨"TypeError", "boom"⟩)).1 =
      Except.error ⟨"Error", "Tavily search failed: boom"⟩ :=
  ⟨rfl, rfl,
   (c7_search_error_wrapping liveState "q" ⟨"TypeError", "boom"⟩ rfl rfl).1⟩

/-- C8: constructing without a valid credential (the underlying tool
constructor throws) and without an explicit `testMode: true` option:
outside a test environment the constructor propagates the error to the
caller; inside a test environment (`DENO_ENV = "test"`) it silently
switches the instance into test mode, where `search` (both variants)
returns the operator-supplied mock results without a network call. -/
theorem c8_constructor_credential_handling (opts : TavilyCtorOptions)
    (denoEnv : Option String) (e : JsError)
    (hopts : opts.testMode ≠ some true) :
    (denoEnv ≠ some "test" →
      tavilyConstructor opts denoEnv (some e) = Except.error e) ∧
    (denoEnv = some "test" →
      tavilyConstructor opts denoEnv (some e) = Except.ok testModeState ∧
      isInTestMode testModeState = true ∧
      ∀ (mocks : List SearchResult) (q : String) (outcome : InvokeOutcome)
        (invokeResult : Except JsError (List SearchResult)),
        (simpleSearch (setMockResults testModeState mocks) q outcome).1 =
            Except.ok mocks ∧
        instrumentedSearch (setMockResults testModeState mocks) invokeResult =
            Except.ok mocks) := by
  constructor
  · intro hne
    simp [tavilyConstructor, hopts, hne]
  · intro henv
    refine ⟨by simp [tavilyConstructor, hopts, henv, testModeState], rfl, ?_⟩
    intro mocks q outcome invokeResult
    constructor
    · simp [simpleSearch, setMockResults, testModeState]
    · simp [instrumentedSearch, setMockResults, testModeState]

/-- Witness for C8 at concrete options, environments and error. -/
theorem c8_constructor_credential_handling_witness :
    ((TavilyCtorOptions.mk none).testMode ≠ some true) ∧
    ((none : Option String) ≠ some "test") ∧
    tavilyConstructor ⟨none⟩ none (some ⟨"Error", "No API key"⟩) =
      Except.error ⟨"Error", "No API key"⟩ ∧
    tavilyConstructor ⟨none⟩ (some "test") (some ⟨"Error", "No API key"⟩) =
      Except.ok testModeState :=
  ⟨by decide, by decide,
   (c8_constructor_credential_handling ⟨none⟩ none ⟨"Error", "No API key"⟩
      (by decide)).1 (by decide),
   ((c8_constructor_credential_handling ⟨none⟩ (some "test")
      ⟨"Error", "No API key"⟩ (by decide)).2 rfl).1⟩

/-- C9: on a malformed (unparseable) string response body, the plain
`TavilySearchService.search` logs the parse error to the console and
returns the empty result list instead of throwing. -/
theorem c9_parse_error_empty_list (st : TavilyState) (q msg : String)
    (h1 : st.isTestMode = false) (h2 : st.toolInitialized = true) :
    (simpleSearch st q (InvokeOutcome.strMalformed msg)).1 = Except.ok [] ∧
    (simpleSearch st q (InvokeOutcome.strMalformed msg)).2 =
      [⟨ConsoleLevel.log, "Performing Tavily search for: \"" ++ q ++ "\""⟩,
       ⟨ConsoleLevel.error, "Error parsing Tavily results: " ++ msg⟩] := by
  simp [simpleSearch, h1, h2]

/-- Witness for C9 at a concrete live state and malformed body. -/
theorem c9_parse_error_empty_list_witness :
    (liveState.isTestMode = false) ∧ (liveState.toolInitialized = true) ∧
    (simpleSearch liveState "q" (InvokeOutcome.strMalformed "bad json")).1 =
      Except.ok [] :=
  ⟨rfl, rfl, (c9_parse_error_empty_list liveState "q" "bad json" rfl rfl).1⟩

/-- C10: `setMockResults` switches any instance — live ones included —
into test mode: afterwards `isInTestMode()` is `true` and `search` (both
variants) returns exactly the supplied mocks without a network call. -/
theorem c10_set_mock_results_forces_test_mode (st : TavilyState)
    (mocks : List SearchResult) (q : String) (outcome : InvokeOutcome)
    (invokeResult : Except JsError (List SearchResult)) :
    isInTestMode (setMockResults st mocks) = true ∧
    (simpleSearch (setMockResults st mocks) q outcome).1 = Except.ok mocks ∧
    instrumentedSearch (setMockResults st mocks) invokeResult =
      Except.ok mocks := by
  have hset : (setMockResults st mocks).isTestMode = true := by
    cases h : st.isTestMode <;> simp [setMockResults, h]
  refine ⟨hset, ?_, ?_⟩
  · simp [simpleSearch, hset, setMockResults]
  · simp [instrumentedSearch, hset, setMockResults]

end DeepResearcher
